import Mathlib

/-!
# Verification of the revilapi REST core

A shallow embedding of the request handlers of the `revilapi` service
(two collections, `Games` and `Characters`, with create / list /
get-by-id / update / patch / delete handlers) together with theorems
checking the natural-language specification against them.

JavaScript runtime values that reach the handlers (parsed JSON bodies
and query strings) are modelled by `JsValue`; JavaScript numbers by
`JsNum` (either NaN or a rational).  The document store is modelled as
a list of records in natural storage order.  The external mongoose
library is a black box to the source; the pieces of its behaviour the
handlers rely on (`ObjectId.isValid`, document save with the unique
`title` index, `skip`/`limit` slicing, reference population) are
modelled per the specification of the storage layer.
-/

namespace Revil

/-- A JavaScript number: NaN, or an actual (rational) numeric value.
(The handlers never produce infinities from query strings of the forms
they meet, so those are not modelled.) -/
inductive JsNum where
  | nan : JsNum
  | num : ℚ → JsNum
deriving DecidableEq, Repr

/-- A JavaScript runtime value, as found in a parsed JSON request body:
`undefined` models an absent field. -/
inductive JsValue where
  | undefined : JsValue
  | null : JsValue
  | str : String → JsValue
  | jnum : JsNum → JsValue
  | bool : Bool → JsValue
  | arr : List JsValue → JsValue
deriving Repr

mutual

/-- Structural equality of stored values, as the storage layer compares
them when enforcing the unique index on `title`. -/
def jsEq : JsValue → JsValue → Bool
  | .undefined, .undefined => true
  | .null, .null => true
  | .str a, .str b => a == b
  | .jnum a, .jnum b => a == b
  | .bool a, .bool b => a == b
  | .arr a, .arr b => jsEqList a b
  | _, _ => false

/-- Elementwise `jsEq` on lists of values. -/
def jsEqList : List JsValue → List JsValue → Bool
  | [], [] => true
  | x :: xs, y :: ys => jsEq x y && jsEqList xs ys
  | _, _ => false

end

/-- JavaScript truthiness: `undefined`, `null`, the empty string, the
numbers `0` and `NaN`, and `false` are falsy; everything else —
including the empty array — is truthy. -/
def truthy : JsValue → Bool
  | .undefined => false
  | .null => false
  | .str s => !s.isEmpty
  | .jnum .nan => false
  | .jnum (.num q) => q != 0
  | .bool b => b
  | .arr _ => true

/-- `v || d` at number type, as in `Number(req.query.page) || 1`:
NaN and `0` are falsy and fall through to the default. -/
def JsNum.orDefault : JsNum → ℚ → ℚ
  | .nan, d => d
  | .num q, d => if q = 0 then d else q

/-- Numeric value of a list of decimal digit characters. -/
def digitsVal (cs : List Char) : ℕ :=
  cs.foldl (fun a c => a * 10 + (c.toNat - 48)) 0

/-- `Number(s)` for a string `s`, restricted to the decimal forms a query
string can take here: after trimming, the empty string is `0`; an
optional sign followed by decimal digits with an optional fraction part
is the denoted rational; anything else (including the non-decimal forms
`Number` accepts, which no claim exercises) is NaN.  The value
`m.f` is assembled as the exact rational `±(m*10^k + f) / 10^k`. -/
def jsNumberOfString (s : String) : JsNum :=
  let ws : Char → Bool := fun c => c == ' ' || c == '\t' || c == '\n' || c == '\r'
  let cs := ((s.toList.dropWhile ws).reverse.dropWhile ws).reverse
  if cs.isEmpty then .num 0
  else
    let sign : ℤ := if cs.head? = some '-' then -1 else 1
    let cs := if cs.head? = some '-' ∨ cs.head? = some '+' then cs.tail else cs
    let intPart := cs.takeWhile Char.isDigit
    match cs.dropWhile Char.isDigit with
    | [] =>
        if intPart.isEmpty then .nan
        else .num (mkRat (sign * digitsVal intPart) 1)
    | '.' :: fracPart =>
        if fracPart.all Char.isDigit && !(intPart.isEmpty && fracPart.isEmpty) then
          .num (mkRat
            (sign * (digitsVal intPart * 10 ^ fracPart.length + digitsVal fracPart))
            (10 ^ fracPart.length))
        else .nan
    | _ => .nan

/-- `Number(q)` for an optional query parameter: an absent parameter is
`undefined`, and `Number(undefined)` is NaN. -/
def jsNumberOfQuery : Option String → JsNum
  | none => .nan
  | some s => jsNumberOfString s

/-- `mongoose.Types.ObjectId.isValid`, modelled per the specification of
the identifier shape (§4.2): a well-formed identifier is a 24-character
hexadecimal token. -/
def isValidObjectId (s : String) : Bool :=
  s.length == 24 && s.toList.all fun c =>
    c.isDigit || ('a' ≤ c && c ≤ 'f') || ('A' ≤ c && c ≤ 'F')

/-- A reference element inside a Character's `games` array is valid when
it is a string holding a well-formed identifier. -/
def isValidGameRef : JsValue → Bool
  | .str s => isValidObjectId s
  | _ => false

/-! ## Stored records

Documents are stored as they arrive from the handlers; a store is a list
of documents in natural storage order. -/

/-- A stored `Games` document (`games.model.ts`): the generated
identifier plus the schema's nine fields. -/
structure Game where
  id : String
  title : JsValue
  releaseYear : JsValue
  platforms : JsValue
  genre : JsValue
  description : JsValue
  developer : JsValue
  mainCharacters : JsValue
  enemies : JsValue
  locations : JsValue
deriving Repr

/-- A stored `Characters` document (`characters.model.ts`): the
generated identifier plus the schema's nine fields — required `name`,
`description`, `age`, `nationality`, `height`, `weight`, `occupations`,
the `games` list of references to Games, and the optional
`organizations` list.  The schema declares no unique index, so a
character save has no constraint to violate. -/
structure Character where
  id : String
  name : JsValue
  description : JsValue
  age : JsValue
  nationality : JsValue
  height : JsValue
  weight : JsValue
  occupations : JsValue
  games : JsValue
  organizations : JsValue
deriving Repr

/-- A parsed request body for a game endpoint: each field the handlers
ever read, `undefined` when absent. -/
structure GameBody where
  title : JsValue
  releaseYear : JsValue
  platforms : JsValue
  genre : JsValue
  description : JsValue
  developer : JsValue
  mainCharacters : JsValue
  enemies : JsValue
  locations : JsValue
deriving Repr

/-- `req.body[field]` for a game body. -/
def GameBody.get (b : GameBody) : String → JsValue
  | "title" => b.title
  | "releaseYear" => b.releaseYear
  | "platforms" => b.platforms
  | "genre" => b.genre
  | "description" => b.description
  | "developer" => b.developer
  | "mainCharacters" => b.mainCharacters
  | "enemies" => b.enemies
  | "locations" => b.locations
  | _ => .undefined

/-- A parsed request body for `POST /characters/create`. -/
structure CharacterBody where
  name : JsValue
  description : JsValue
  age : JsValue
  nationality : JsValue
  height : JsValue
  weight : JsValue
  occupations : JsValue
  games : JsValue
  organizations : JsValue
deriving Repr

/-- `req.body[field]` for a character body. -/
def CharacterBody.get (b : CharacterBody) : String → JsValue
  | "name" => b.name
  | "description" => b.description
  | "age" => b.age
  | "nationality" => b.nationality
  | "height" => b.height
  | "weight" => b.weight
  | "occupations" => b.occupations
  | "games" => b.games
  | "organizations" => b.organizations
  | _ => .undefined

/-! ## Shared validation loop -/

/-- The `for (const field of requiredFields) if (!req.body[field])` loop
of both create handlers and of the PUT handler: the first field of the
list whose body value is falsy, if any. -/
def firstMissingField (get : String → JsValue) : List String → Option String
  | [] => none
  | f :: rest => if truthy (get f) then firstMissingField get rest else some f

/-- The 400 body `The field "<name>" is required`. -/
def requiredFieldMessage (f : String) : String :=
  "The field \"" ++ f ++ "\" is required"

/-! ## Game handlers (`games.controller.ts`) -/

/-- The `requiredFields` list of `createGame` (lines 22-29). -/
def gameRequiredCreate : List String :=
  ["title", "releaseYear", "platforms", "genre", "description", "developer"]

/-- The `requiredFields` list of `updateGameById` (lines 188-196):
the six create fields plus `mainCharacters`. -/
def gameRequiredUpdate : List String :=
  ["title", "releaseYear", "platforms", "genre", "description", "developer",
   "mainCharacters"]

/-- Outcome of a single-record game endpoint, paired with its HTTP
status by `GameResult.status`. -/
inductive GameResult where
  | badRequest (message : String)
  | notFound (message : String)
  | okGame (game : Game)
  | okDeleted (message : String)
  | createdGame (game : Game)
  | serverError
deriving Repr

/-- HTTP status of a `GameResult`. -/
def GameResult.status : GameResult → ℕ
  | .badRequest _ => 400
  | .notFound _ => 404
  | .okGame _ => 200
  | .okDeleted _ => 200
  | .createdGame _ => 201
  | .serverError => 500

/-- `Games.findById` / first document with the given identifier. -/
def findGame (store : List Game) (id : String) : Option Game :=
  store.find? fun g => g.id == id

/-- `findByIdAndUpdate`: the store with the first document of the given
identifier replaced. -/
def replaceById : List Game → String → Game → List Game
  | [], _, _ => []
  | g :: rest, id, g' => if g.id == id then g' :: rest else g :: replaceById rest id g'

/-- `findByIdAndDelete`: the store with the first document of the given
identifier removed. -/
def removeById : List Game → String → List Game
  | [], _ => []
  | g :: rest, id => if g.id == id then rest else g :: removeById rest id

/-- `createGame` (games.controller.ts lines 18-58): check the six
required fields in declared order, then construct a document from
exactly the six destructured fields (the schema's reference and
optional lists start empty) and save it.  The save models the storage
layer's unique index on `title`: a duplicate title is a storage error,
surfaced as 500. -/
def createGame (store : List Game) (body : GameBody) (newId : String) :
    GameResult × List Game :=
  match firstMissingField body.get gameRequiredCreate with
  | some f => (.badRequest (requiredFieldMessage f), store)
  | none =>
    if store.any (fun g => jsEq g.title body.title) then
      (.serverError, store)
    else
      let newGame : Game :=
        { id := newId, title := body.title, releaseYear := body.releaseYear,
          platforms := body.platforms, genre := body.genre,
          description := body.description, developer := body.developer,
          mainCharacters := .arr [], enemies := .arr [], locations := .arr [] }
      (.createdGame newGame, store ++ [newGame])

/-- `getGameById` (lines 109-137): identifier shape check, then fetch. -/
def getGameById (store : List Game) (id : String) : GameResult :=
  if !isValidObjectId id then .badRequest "Invalid GameID format"
  else
    match findGame store id with
    | none => .notFound "GameID Not Found"
    | some game => .okGame game

/-- `deleteGameById` (lines 145-169). -/
def deleteGameById (store : List Game) (id : String) : GameResult × List Game :=
  if !isValidObjectId id then (.badRequest "Invalid GameID format", store)
  else
    match findGame store id with
    | none => (.notFound "GameID Not Found", store)
    | some _ => (.okDeleted "Game Deleted Correctly", removeById store id)

/-- `updateGameById` (PUT, lines 176-239): identifier shape check, the
seven-field required check, then a full replacement of the seven listed
fields (the identifier and the remaining stored fields are untouched). -/
def updateGameById (store : List Game) (id : String) (body : GameBody) :
    GameResult × List Game :=
  if !isValidObjectId id then (.badRequest "Invalid GameID format", store)
  else
    match firstMissingField body.get gameRequiredUpdate with
    | some f => (.badRequest (requiredFieldMessage f), store)
    | none =>
      match findGame store id with
      | none => (.notFound "GameID Not Found", store)
      | some g =>
        let g' : Game :=
          { g with
            title := body.title, releaseYear := body.releaseYear,
            platforms := body.platforms, genre := body.genre,
            description := body.description, developer := body.developer,
            mainCharacters := body.mainCharacters }
        (.okGame g', replaceById store id g')

/-- The sparse `updateData` object of the PATCH handler (lines 268-275)
applied to a stored document: each of the seven fields that is truthy in
the body is set, every other stored field keeps its value. -/
def patchMerge (g : Game) (body : GameBody) : Game :=
  { g with
    title := if truthy body.title then body.title else g.title,
    releaseYear := if truthy body.releaseYear then body.releaseYear else g.releaseYear,
    platforms := if truthy body.platforms then body.platforms else g.platforms,
    genre := if truthy body.genre then body.genre else g.genre,
    description := if truthy body.description then body.description else g.description,
    developer := if truthy body.developer then body.developer else g.developer,
    mainCharacters := if truthy body.mainCharacters then body.mainCharacters
      else g.mainCharacters }

/-- `updateGameByIdPatch` (PATCH, lines 246-291): identifier shape
check, no required-field validation, sparse merge. -/
def updateGameByIdPatch (store : List Game) (id : String) (body : GameBody) :
    GameResult × List Game :=
  if !isValidObjectId id then (.badRequest "Invalid GameID format", store)
  else
    match findGame store id with
    | none => (.notFound "GameID Not Found", store)
    | some g =>
      let g' := patchMerge g body
      (.okGame g', replaceById store id g')

/-! ## List handlers -/

/-- A game as it appears in a `GET /games` response item:
`populate("mainCharacters", "name")` resolves each stored character
reference to the referenced character's identifier and `name`;
references that do not resolve are dropped. -/
structure GameListItem where
  id : String
  title : JsValue
  releaseYear : JsValue
  platforms : JsValue
  genre : JsValue
  description : JsValue
  developer : JsValue
  enemies : JsValue
  locations : JsValue
  mainCharacters : List (String × JsValue)
deriving Repr

/-- Resolve one stored character reference to a `name` projection. -/
def resolveCharacterName (cstore : List Character) : JsValue → Option (String × JsValue)
  | .str s => (cstore.find? fun c => c.id == s).map fun c => (c.id, c.name)
  | _ => none

/-- One game of a `GET /games` page, its `mainCharacters` populated. -/
def populateGameItem (cstore : List Character) (g : Game) : GameListItem :=
  { id := g.id, title := g.title, releaseYear := g.releaseYear,
    platforms := g.platforms, genre := g.genre, description := g.description,
    developer := g.developer, enemies := g.enemies, locations := g.locations,
    mainCharacters :=
      match g.mainCharacters with
      | .arr refs => refs.filterMap (resolveCharacterName cstore)
      | _ => [] }

/-- Outcome of `GET /games`. -/
inductive GameListResult where
  | badRequest (message : String)
  | ok (page : ℚ) (limit : ℚ) (totalGames : ℕ) (games : List GameListItem)
  | serverError
deriving Repr

/-- HTTP status of a `GameListResult`. -/
def GameListResult.status : GameListResult → ℕ
  | .badRequest _ => 400
  | .ok _ _ _ _ => 200
  | .serverError => 500

/-- The body of `getAllGames` after `page` and `limit` have been
computed (lines 75-96): the positivity guard, then
`countDocuments` / `find().skip((page-1)*limit).limit(limit)` with the
`mainCharacters` name projection.  The storage layer accepts the skip
and limit only for whole numbers; a fractional value that passes the
guard is a storage error, surfaced as 500. -/
def getAllGamesPaged (gstore : List Game) (cstore : List Character)
    (page limit : ℚ) : GameListResult :=
  if page < 1 ∨ limit < 1 then
    .badRequest "Page and limit must be positive numbers"
  else if page.den = 1 ∧ limit.den = 1 then
    let skip := ((page.num - 1) * limit.num).toNat
    .ok page limit gstore.length
      (((gstore.drop skip).take limit.num.toNat).map (populateGameItem cstore))
  else .serverError

/-- `getAllGames` (lines 69-101): `Number(req.query.page) || 1` and
`Number(req.query.limit) || 10`, then the paged fetch. -/
def getAllGames (gstore : List Game) (cstore : List Character)
    (pageQ limitQ : Option String) : GameListResult :=
  getAllGamesPaged gstore cstore
    ((jsNumberOfQuery pageQ).orDefault 1) ((jsNumberOfQuery limitQ).orDefault 10)

/-- A character as it appears in a `GET /characters` response item:
`populate("games", "title")` resolves each stored game reference to the
referenced game's identifier and `title`. -/
structure CharacterListItem where
  id : String
  name : JsValue
  description : JsValue
  age : JsValue
  nationality : JsValue
  height : JsValue
  weight : JsValue
  occupations : JsValue
  organizations : JsValue
  games : List (String × JsValue)
deriving Repr

/-- Resolve one stored game reference to a `title` projection. -/
def resolveGameTitle (gstore : List Game) : JsValue → Option (String × JsValue)
  | .str s => (gstore.find? fun g => g.id == s).map fun g => (g.id, g.title)
  | _ => none

/-- One character of a `GET /characters` page, its `games` populated. -/
def populateCharacterItem (gstore : List Game) (c : Character) : CharacterListItem :=
  { id := c.id, name := c.name, description := c.description, age := c.age,
    nationality := c.nationality, height := c.height, weight := c.weight,
    occupations := c.occupations, organizations := c.organizations,
    games :=
      match c.games with
      | .arr refs => refs.filterMap (resolveGameTitle gstore)
      | _ => [] }

/-- Outcome of `GET /characters`. -/
inductive CharacterListResult where
  | badRequest (message : String)
  | ok (page : ℚ) (limit : ℚ) (totalCharacters : ℕ)
      (characters : List CharacterListItem)
  | serverError
deriving Repr

/-- HTTP status of a `CharacterListResult`. -/
def CharacterListResult.status : CharacterListResult → ℕ
  | .badRequest _ => 400
  | .ok _ _ _ _ => 200
  | .serverError => 500

/-- The body of `getAllCharacters` after `page` and `limit` have been
computed (characters.routes.ts lines 107-128). -/
def getAllCharactersPaged (gstore : List Game) (cstore : List Character)
    (page limit : ℚ) : CharacterListResult :=
  if page < 1 ∨ limit < 1 then
    .badRequest "Page and limit must be positive numbers"
  else if page.den = 1 ∧ limit.den = 1 then
    let skip := ((page.num - 1) * limit.num).toNat
    .ok page limit cstore.length
      (((cstore.drop skip).take limit.num.toNat).map (populateCharacterItem gstore))
  else .serverError

/-- `getAllCharacters` (characters.routes.ts lines 100-133). -/
def getAllCharacters (gstore : List Game) (cstore : List Character)
    (pageQ limitQ : Option String) : CharacterListResult :=
  getAllCharactersPaged gstore cstore
    ((jsNumberOfQuery pageQ).orDefault 1) ((jsNumberOfQuery limitQ).orDefault 10)

/-! ## Character create handler (`characters.controller.ts`) -/

/-- The `requiredFields` list of `createCharacter` (lines 38-47). -/
def characterRequiredCreate : List String :=
  ["name", "description", "age", "nationality", "height", "weight",
   "occupations", "games"]

/-- Outcome of `POST /characters/create`: a created character is
returned with its `games` references resolved to full game documents. -/
inductive CharacterResult where
  | badRequest (message : String)
  | createdCharacter (character : Character) (populatedGames : List Game)
  | serverError
deriving Repr

/-- HTTP status of a `CharacterResult`. -/
def CharacterResult.status : CharacterResult → ℕ
  | .badRequest _ => 400
  | .createdCharacter _ _ => 201
  | .serverError => 500

/-- Resolve one stored game reference to the full game document. -/
def resolveGameRef (gstore : List Game) : JsValue → Option Game
  | .str s => gstore.find? fun g => g.id == s
  | _ => none

/-- `createCharacter` (characters.controller.ts lines 34-98): the
eight-field required check in declared order, then
`games.every(id => ObjectId.isValid(id))` over the `games` array, then
construction from exactly the eight destructured fields (`organizations`
is never read from the body and starts empty), save, and
`populate("games")` on the response.  A truthy non-array `games` value
has no `.every` method: the thrown TypeError is caught and surfaced
as 500. -/
def createCharacter (gstore : List Game) (cstore : List Character)
    (body : CharacterBody) (newId : String) : CharacterResult × List Character :=
  match firstMissingField body.get characterRequiredCreate with
  | some f => (.badRequest (requiredFieldMessage f), cstore)
  | none =>
    match body.games with
    | .arr refs =>
      if !refs.all isValidGameRef then
        (.badRequest "Invalid game ID(s) in the \x27games\x27 field", cstore)
      else
        let c : Character :=
          { id := newId, name := body.name, description := body.description,
            age := body.age, nationality := body.nationality,
            height := body.height, weight := body.weight,
            occupations := body.occupations, games := body.games,
            organizations := .arr [] }
        (.createdCharacter c (refs.filterMap (resolveGameRef gstore)),
          cstore ++ [c])
    | _ => (.serverError, cstore)

/-! ## Spec-side notions used to state the claims -/

/-- A JavaScript number is falsy when it is NaN or zero. -/
def jsNumFalsy : JsNum → Bool
  | .nan => true
  | .num q => q == 0

/-- A query value "parses to a number that is nonzero and less than 1":
the condition under which, per the spec, the pagination guard fires. -/
def parsesBelowOne (v : JsNum) : Prop :=
  ∃ q : ℚ, v = .num q ∧ q ≠ 0 ∧ q < 1

/-! ## Concrete sample data -/

/-- A well-formed 24-character identifier. -/
def validId : String := "507f1f77bcf86cd799439011"

/-- A second well-formed identifier, distinct from `validId`. -/
def validId2 : String := "507f1f77bcf86cd799439012"

/-- A game body with every field absent. -/
def gbNone : GameBody :=
  { title := .undefined, releaseYear := .undefined, platforms := .undefined,
    genre := .undefined, description := .undefined, developer := .undefined,
    mainCharacters := .undefined, enemies := .undefined, locations := .undefined }

/-- A game body with all seven update fields present and truthy. -/
def gbFull : GameBody :=
  { title := .str "Resident Evil 4", releaseYear := .jnum (.num 2005),
    platforms := .arr [.str "PS2"], genre := .str "Survival horror",
    description := .str "A third-person shooter", developer := .str "Capcom",
    mainCharacters := .arr [.str "507f1f77bcf86cd799439012"],
    enemies := .undefined, locations := .undefined }

/-- `gbFull` without a `mainCharacters` value. -/
def gbNoMain : GameBody :=
  { gbFull with mainCharacters := .undefined }

/-- `gbFull` with `platforms` the empty list. -/
def gbEmptyPlatforms : GameBody :=
  { gbFull with platforms := .arr [] }

/-- `gbFull` with `releaseYear` zero. -/
def gbZeroYear : GameBody :=
  { gbFull with releaseYear := .jnum (.num 0) }

/-- A stored game with identifier `validId`. -/
def sampleGame : Game :=
  { id := validId, title := .str "Resident Evil", releaseYear := .jnum (.num 1996),
    platforms := .arr [.str "PS1"], genre := .str "Survival horror",
    description := .str "The original", developer := .str "Capcom",
    mainCharacters := .arr [], enemies := .arr [], locations := .arr [] }

/-- A character body with every field absent. -/
def cbNone : CharacterBody :=
  { name := .undefined, description := .undefined, age := .undefined,
    nationality := .undefined, height := .undefined, weight := .undefined,
    occupations := .undefined, games := .undefined, organizations := .undefined }

/-- A character body with all eight required fields present and truthy,
its `games` referencing `validId`. -/
def cbFull : CharacterBody :=
  { name := .str "Leon S. Kennedy", description := .str "A police officer",
    age := .jnum (.num 21), nationality := .str "American",
    height := .str "180 cm", weight := .str "70 kg",
    occupations := .arr [.str "Police officer"],
    games := .arr [.str "507f1f77bcf86cd799439011"], organizations := .undefined }

/-- `cbFull` with a malformed identifier inside `games`. -/
def cbBadGames : CharacterBody :=
  { cbFull with games := .arr [.str "abc"] }

/-- A stored character with identifier `validId2`. -/
def sampleCharacter : Character :=
  { id := validId2, name := .str "Jill Valentine", description := .str "A member of STARS",
    age := .jnum (.num 23), nationality := .str "American", height := .str "166 cm",
    weight := .str "54 kg", occupations := .arr [.str "STARS member"],
    games := .arr [.str "507f1f77bcf86cd799439011"], organizations := .arr [] }

/-! # Helper lemmas -/

/-- The validation loop returns exactly the first field of its list
whose body value is falsy. -/
theorem firstMissingField_eq_find (get : String → JsValue) (l : List String) :
    firstMissingField get l = l.find? fun f => !truthy (get f) := by
  induction l with
  | nil => rfl
  | cons f rest ih =>
    cases h : truthy (get f) <;>
      simp [firstMissingField, List.find?_cons, h, ih]

/-- A field reported missing is one of the required fields. -/
theorem firstMissingField_mem {get : String → JsValue} {l : List String}
    {f : String} (h : firstMissingField get l = some f) : f ∈ l := by
  rw [firstMissingField_eq_find] at h
  exact List.mem_of_find?_eq_some h

/-- Replacing the first match of a lookup by the found document itself
leaves the store unchanged. -/
theorem replaceById_self {store : List Game} {id : String} {g : Game}
    (h : findGame store id = some g) : replaceById store id g = store := by
  induction store with
  | nil => simp [findGame] at h
  | cons a rest ih =>
    rw [findGame] at h ih
    cases hid : a.id == id with
    | true =>
      simp only [List.find?_cons, hid] at h
      cases h
      simp [replaceById, hid]
    | false =>
      simp only [List.find?_cons, hid] at h
      simp [replaceById, hid, ih h]

/-! # Claims -/

/-- C1: for every create request (Game or Character) in which some
required field is missing (falsy), the handler responds 400 with body
message exactly `The field "<name>" is required` naming the first
missing field in the declared order (`gameRequiredCreate` for games,
`characterRequiredCreate` for characters), and the store is unchanged:
no record is persisted. -/
theorem create_rejects_first_missing_field :
    (∀ (store : List Game) (body : GameBody) (newId : String) (f : String),
        (gameRequiredCreate.find? fun x => !truthy (body.get x)) = some f →
        createGame store body newId = (.badRequest (requiredFieldMessage f), store) ∧
        GameResult.status (.badRequest (requiredFieldMessage f)) = 400) ∧
    (∀ (gstore : List Game) (cstore : List Character) (body : CharacterBody)
        (newId : String) (f : String),
        (characterRequiredCreate.find? fun x => !truthy (body.get x)) = some f →
        createCharacter gstore cstore body newId =
          (.badRequest (requiredFieldMessage f), cstore) ∧
        CharacterResult.status (.badRequest (requiredFieldMessage f)) = 400) := by
  constructor
  · intro store body newId f h
    rw [← firstMissingField_eq_find] at h
    exact ⟨by simp [createGame, h], rfl⟩
  · intro gstore cstore body newId f h
    rw [← firstMissingField_eq_find] at h
    exact ⟨by simp [createCharacter, h], rfl⟩

/-- C1 witness: a game body missing `title` and a character body missing
`name` are each rejected with the corresponding message, persisting
nothing. -/
theorem create_rejects_first_missing_field_witness :
    createGame [] gbNone validId = (.badRequest (requiredFieldMessage "title"), []) ∧
    createCharacter [] [] cbNone validId =
      (.badRequest (requiredFieldMessage "name"), []) :=
  ⟨(create_rejects_first_missing_field.1 [] gbNone validId "title" (by decide)).1,
   (create_rejects_first_missing_field.2 [] [] cbNone validId "name" (by decide)).1⟩

/-- C2 counterexample: a create body whose `platforms` is the empty
list is not rejected.  The empty array is truthy in JavaScript, so
`createGame` accepts it and responds 201, not 400. -/
theorem c2_empty_list_platforms_not_rejected :
    (createGame [] gbEmptyPlatforms validId).1.status = 201 ∧
    (createGame [] gbEmptyPlatforms validId).1.status ≠ 400 := by
  exact ⟨by decide, by decide⟩

/-- C2 as amended: a required field counts as missing exactly when its
value is falsy — absent, null, empty string, zero, or NaN — while an
empty list is truthy and is accepted.  In particular `releaseYear = 0`
(games) and `age = 0` (characters) are rejected with 400 and nothing is
persisted, and a games body that is complete except that `platforms` is
the empty list is created with 201. -/
theorem missing_means_falsy :
    (∀ (store : List Game) (body : GameBody) (newId : String),
        truthy body.releaseYear = false →
        (createGame store body newId).1.status = 400 ∧
        (createGame store body newId).2 = store) ∧
    (∀ (gstore : List Game) (cstore : List Character) (body : CharacterBody)
        (newId : String),
        truthy body.age = false →
        (createCharacter gstore cstore body newId).1.status = 400 ∧
        (createCharacter gstore cstore body newId).2 = cstore) ∧
    (truthy (.arr []) = true ∧ truthy (.str "") = false ∧
      truthy (.jnum (.num 0)) = false ∧ truthy (.jnum .nan) = false ∧
      truthy .null = false ∧ truthy .undefined = false) ∧
    (∀ (store : List Game) (body : GameBody) (newId : String),
        truthy body.title = true → truthy body.releaseYear = true →
        body.platforms = .arr [] →
        truthy body.genre = true → truthy body.description = true →
        truthy body.developer = true →
        store.any (fun g => jsEq g.title body.title) = false →
        (createGame store body newId).1.status = 201) := by
  refine ⟨?_, ?_, by decide, ?_⟩
  · intro store body newId hfalsy
    cases hm : firstMissingField body.get gameRequiredCreate with
    | some f => simp [createGame, hm, GameResult.status]
    | none =>
      rw [firstMissingField_eq_find] at hm
      have := List.find?_eq_none.mp hm "releaseYear" (by decide)
      simp [GameBody.get, hfalsy] at this
  · intro gstore cstore body newId hfalsy
    cases hm : firstMissingField body.get characterRequiredCreate with
    | some f => simp [createCharacter, hm, CharacterResult.status]
    | none =>
      rw [firstMissingField_eq_find] at hm
      have := List.find?_eq_none.mp hm "age" (by decide)
      simp [CharacterBody.get, hfalsy] at this
  · intro store body newId h1 h2 h3 h4 h5 h6 hfresh
    have hp : truthy body.platforms = true := by rw [h3]; rfl
    have hm : firstMissingField body.get gameRequiredCreate = none := by
      simp [firstMissingField, gameRequiredCreate, GameBody.get,
        h1, h2, hp, h4, h5, h6]
    simp [createGame, hm, hfresh, GameResult.status]

/-- C2 witness: `releaseYear = 0` and `age = 0` are rejected with 400;
the empty `platforms` list is accepted with 201. -/
theorem missing_means_falsy_witness :
    (createGame [] gbZeroYear validId).1.status = 400 ∧
    (createCharacter [] [] { cbFull with age := .jnum (.num 0) } validId).1.status
      = 400 ∧
    (createGame [] gbEmptyPlatforms validId).1.status = 201 :=
  ⟨(missing_means_falsy.1 [] gbZeroYear validId (by decide)).1,
   (missing_means_falsy.2.1 [] [] { cbFull with age := .jnum (.num 0) } validId
      (by decide)).1,
   missing_means_falsy.2.2.2 [] gbEmptyPlatforms validId (by decide) (by decide)
     rfl (by decide) (by decide) (by decide) rfl⟩

/-- The pagination guard is the only source of a 400 in `getAllGames`:
the paged fetch responds with the guard's message exactly when the
computed page or limit is below 1. -/
theorem getAllGamesPaged_badRequest_iff
    (gstore : List Game) (cstore : List Character) (p l : ℚ) :
    getAllGamesPaged gstore cstore p l =
      .badRequest "Page and limit must be positive numbers" ↔ p < 1 ∨ l < 1 := by
  by_cases h : p < 1 ∨ l < 1
  · simp [getAllGamesPaged, h]
  · by_cases h2 : p.den = 1 ∧ l.den = 1 <;> simp [getAllGamesPaged, h, h2]

/-- The pagination guard is the only source of a 400 in
`getAllCharacters`. -/
theorem getAllCharactersPaged_badRequest_iff
    (gstore : List Game) (cstore : List Character) (p l : ℚ) :
    getAllCharactersPaged gstore cstore p l =
      .badRequest "Page and limit must be positive numbers" ↔ p < 1 ∨ l < 1 := by
  by_cases h : p < 1 ∨ l < 1
  · simp [getAllCharactersPaged, h]
  · by_cases h2 : p.den = 1 ∧ l.den = 1 <;> simp [getAllCharactersPaged, h, h2]

/-- `Number(q) || d` is below 1 exactly when the query value parsed to a
nonzero number below 1, provided the default is at least 1. -/
theorem orDefault_lt_one (v : JsNum) (d : ℚ) (hd : ¬ d < 1) :
    (v.orDefault d < 1) ↔ parsesBelowOne v := by
  cases v with
  | nan => simp [JsNum.orDefault, hd, parsesBelowOne]
  | num q =>
    by_cases hq : q = 0
    · subst hq; simp [JsNum.orDefault, hd, parsesBelowOne]
    · simp [JsNum.orDefault, hq, parsesBelowOne]

/-- C3 counterexample: the list request `GET /games?page=0` is not
rejected.  `Number("0")` is `0`, which is falsy, so `|| 1` replaces it
by the default page 1 and the request succeeds with 200, not 400. -/
theorem c3_page_zero_not_rejected :
    (getAllGames [] [] (some "0") none).status = 200 ∧
    (getAllGames [] [] (some "0") none).status ≠ 400 :=
  ⟨by decide, by decide⟩

/-- C3 as amended: a `page` or `limit` query value parsing to a negative
number yields 400 with message `Page and limit must be positive numbers`
regardless of the collections' contents, but `page=0` or `limit=0`
parses to the falsy number 0, is replaced by the default, and the
request succeeds with 200. -/
theorem pagination_negative_rejected_zero_defaulted :
    (∀ (gstore : List Game) (cstore : List Character) (s : String) (q : ℚ)
        (lq : Option String), jsNumberOfString s = .num q → q < 0 →
        getAllGames gstore cstore (some s) lq =
          .badRequest "Page and limit must be positive numbers") ∧
    (∀ (gstore : List Game) (cstore : List Character) (s : String) (q : ℚ)
        (pq : Option String), jsNumberOfString s = .num q → q < 0 →
        getAllGames gstore cstore pq (some s) =
          .badRequest "Page and limit must be positive numbers") ∧
    (∀ (gstore : List Game) (cstore : List Character),
        (getAllGames gstore cstore (some "0") none).status = 200 ∧
        (getAllGames gstore cstore none (some "0")).status = 200) ∧
    (∀ (gstore : List Game) (cstore : List Character) (s : String) (q : ℚ)
        (lq : Option String), jsNumberOfString s = .num q → q < 0 →
        getAllCharacters gstore cstore (some s) lq =
          .badRequest "Page and limit must be positive numbers") ∧
    (∀ (gstore : List Game) (cstore : List Character) (s : String) (q : ℚ)
        (pq : Option String), jsNumberOfString s = .num q → q < 0 →
        getAllCharacters gstore cstore pq (some s) =
          .badRequest "Page and limit must be positive numbers") ∧
    (∀ (gstore : List Game) (cstore : List Character),
        (getAllCharacters gstore cstore (some "0") none).status = 200 ∧
        (getAllCharacters gstore cstore none (some "0")).status = 200) := by
  have horq : ∀ (q : ℚ) (d : ℚ), q < 0 → JsNum.orDefault (.num q) d = q := by
    intro q d hq
    simp [JsNum.orDefault, ne_of_lt hq]
  refine ⟨?_, ?_, ?_, ?_, ?_, ?_⟩
  · intro gstore cstore s q lq hparse hneg
    rw [getAllGames, jsNumberOfQuery, hparse, horq q 1 hneg]
    exact (getAllGamesPaged_badRequest_iff _ _ _ _).mpr
      (Or.inl (hneg.trans one_pos))
  · intro gstore cstore s q pq hparse hneg
    rw [getAllGames, jsNumberOfQuery, hparse, horq q 10 hneg]
    exact (getAllGamesPaged_badRequest_iff _ _ _ _).mpr
      (Or.inr (hneg.trans one_pos))
  · intro gstore cstore
    have hp : (jsNumberOfQuery (some "0")).orDefault 1 = 1 := by decide
    have hp10 : (jsNumberOfQuery (some "0")).orDefault 10 = 10 := by decide
    have hn1 : (jsNumberOfQuery none).orDefault 1 = 1 := rfl
    have hn10 : (jsNumberOfQuery none).orDefault 10 = 10 := rfl
    constructor
    · rw [getAllGames, hp, hn10]
      simp [getAllGamesPaged, GameListResult.status]
    · rw [getAllGames, hn1, hp10]
      simp [getAllGamesPaged, GameListResult.status]
  · intro gstore cstore s q lq hparse hneg
    rw [getAllCharacters, jsNumberOfQuery, hparse, horq q 1 hneg]
    exact (getAllCharactersPaged_badRequest_iff _ _ _ _).mpr
      (Or.inl (hneg.trans one_pos))
  · intro gstore cstore s q pq hparse hneg
    rw [getAllCharacters, jsNumberOfQuery, hparse, horq q 10 hneg]
    exact (getAllCharactersPaged_badRequest_iff _ _ _ _).mpr
      (Or.inr (hneg.trans one_pos))
  · intro gstore cstore
    have hp : (jsNumberOfQuery (some "0")).orDefault 1 = 1 := by decide
    have hp10 : (jsNumberOfQuery (some "0")).orDefault 10 = 10 := by decide
    have hn1 : (jsNumberOfQuery none).orDefault 1 = 1 := rfl
    have hn10 : (jsNumberOfQuery none).orDefault 10 = 10 := rfl
    constructor
    · rw [getAllCharacters, hp, hn10]
      simp [getAllCharactersPaged, CharacterListResult.status]
    · rw [getAllCharacters, hn1, hp10]
      simp [getAllCharactersPaged, CharacterListResult.status]

/-- C3 witness: `page=-1` is rejected with the pagination message on
both collections; `page=0` and `limit=0` succeed with 200. -/
theorem pagination_negative_rejected_zero_defaulted_witness :
    getAllGames [] [] (some "-1") none =
      .badRequest "Page and limit must be positive numbers" ∧
    getAllCharacters [] [] none (some "-1") =
      .badRequest "Page and limit must be positive numbers" ∧
    (getAllGames [sampleGame] [] (some "0") none).status = 200 ∧
    (getAllCharacters [] [] none (some "0")).status = 200 :=
  ⟨pagination_negative_rejected_zero_defaulted.1 [] [] "-1" (-1) none
      (by decide) (by norm_num),
   pagination_negative_rejected_zero_defaulted.2.2.2.2.1 [] [] "-1" (-1) none
      (by decide) (by norm_num),
   (pagination_negative_rejected_zero_defaulted.2.2.1 [sampleGame] []).1,
   (pagination_negative_rejected_zero_defaulted.2.2.2.2.2 [] []).2⟩

/-- C4: for every collection of size N and every valid list request with
page P ≥ 1 and limit L ≥ 1, the paged fetch returns exactly the records
at offset (P−1)·L in natural storage order, `min(L, max(0, N−(P−1)·L))`
of them, and the reported total (`totalGames` / `totalCharacters`)
equals N regardless of the page. -/
theorem pagination_window :
    (∀ (gstore : List Game) (cstore : List Character) (P L : ℕ),
        1 ≤ P → 1 ≤ L →
        getAllGamesPaged gstore cstore (P : ℚ) (L : ℚ) =
          .ok (P : ℚ) (L : ℚ) gstore.length
            (((gstore.drop ((P - 1) * L)).take L).map (populateGameItem cstore)) ∧
        (((gstore.drop ((P - 1) * L)).take L).length : ℤ) =
          min (L : ℤ) (max 0 ((gstore.length : ℤ) - ((P : ℤ) - 1) * (L : ℤ)))) ∧
    (∀ (gstore : List Game) (cstore : List Character) (P L : ℕ),
        1 ≤ P → 1 ≤ L →
        getAllCharactersPaged gstore cstore (P : ℚ) (L : ℚ) =
          .ok (P : ℚ) (L : ℚ) cstore.length
            (((cstore.drop ((P - 1) * L)).take L).map (populateCharacterItem gstore)) ∧
        (((cstore.drop ((P - 1) * L)).take L).length : ℤ) =
          min (L : ℤ) (max 0 ((cstore.length : ℤ) - ((P : ℤ) - 1) * (L : ℤ)))) := by
  have hbounds : ∀ (P L : ℕ), 1 ≤ P → 1 ≤ L →
      ¬ ((P:ℚ) < 1 ∨ (L:ℚ) < 1) := by
    intro P L hP hL
    push_neg
    exact ⟨Nat.one_le_cast.mpr hP, Nat.one_le_cast.mpr hL⟩
  have hcast : ∀ (P L : ℕ), 1 ≤ P →
      ((P:ℤ) - 1) * (L:ℤ) = (((P - 1) * L : ℕ) : ℤ) := by
    intro P L hP
    push_cast [Nat.cast_sub hP]; ring
  have hskip : ∀ (P L : ℕ), 1 ≤ P →
      (((P:ℚ).num - 1) * (L:ℚ).num).toNat = (P - 1) * L := by
    intro P L hP
    rw [Rat.num_natCast, Rat.num_natCast, hcast P L hP, Int.toNat_natCast]
  have htake : ∀ (L : ℕ), ((L:ℚ)).num.toNat = L := by
    intro L
    rw [Rat.num_natCast, Int.toNat_natCast]
  constructor
  · intro gstore cstore P L hP hL
    constructor
    · rw [getAllGamesPaged, if_neg (hbounds P L hP hL),
        if_pos ⟨Rat.den_natCast P, Rat.den_natCast L⟩]
      rw [hskip P L hP, htake L]
    · rw [List.length_take, List.length_drop, hcast P L hP]
      generalize ((P - 1) * L : ℕ) = s
      omega
  · intro gstore cstore P L hP hL
    constructor
    · rw [getAllCharactersPaged, if_neg (hbounds P L hP hL),
        if_pos ⟨Rat.den_natCast P, Rat.den_natCast L⟩]
      rw [hskip P L hP, htake L]
    · rw [List.length_take, List.length_drop, hcast P L hP]
      generalize ((P - 1) * L : ℕ) = s
      omega

/-- C4 witness: page 2 with limit 10 over a one-game store returns the
empty window past the end while still reporting total 1, and page 1
with limit 1 over a one-character store returns that character. -/
theorem pagination_window_witness :
    (getAllGamesPaged [sampleGame] [] ((2:ℕ) : ℚ) ((10:ℕ) : ℚ) =
        .ok ((2:ℕ) : ℚ) ((10:ℕ) : ℚ) [sampleGame].length
          ((([sampleGame].drop ((2 - 1) * 10)).take 10).map (populateGameItem [])) ∧
      (((([sampleGame] : List Game).drop ((2 - 1) * 10)).take 10).length : ℤ) =
        min ((10:ℕ) : ℤ)
          (max 0 ((([sampleGame] : List Game).length : ℤ) - (((2:ℕ) : ℤ) - 1) * ((10:ℕ) : ℤ)))) ∧
    (getAllCharactersPaged [] [sampleCharacter] ((1:ℕ) : ℚ) ((1:ℕ) : ℚ) =
        .ok ((1:ℕ) : ℚ) ((1:ℕ) : ℚ) [sampleCharacter].length
          ((([sampleCharacter].drop ((1 - 1) * 1)).take 1).map (populateCharacterItem [])) ∧
      (((([sampleCharacter] : List Character).drop ((1 - 1) * 1)).take 1).length : ℤ) =
        min ((1:ℕ) : ℤ)
          (max 0 ((([sampleCharacter] : List Character).length : ℤ) - (((1:ℕ) : ℤ) - 1) * ((1:ℕ) : ℤ)))) :=
  ⟨pagination_window.1 [sampleGame] [] 2 10 (by norm_num) (by norm_num),
   pagination_window.2 [] [sampleCharacter] 1 1 (by norm_num) (by norm_num)⟩

/-- C5: a PATCH on an existing well-formed id responds 200 with the
merged record and never a required-field error; every stored field whose
body value is absent or falsy keeps its prior value, only
present-and-truthy fields among the seven are changed, and a patch in
which none of the seven is present and truthy returns 200 with the
record (and the store) unchanged. -/
theorem patch_preserves_falsy_fields :
    ∀ (store : List Game) (id : String) (body : GameBody) (g : Game),
      isValidObjectId id = true → findGame store id = some g →
      ∃ u : Game,
        updateGameByIdPatch store id body = (.okGame u, replaceById store id u) ∧
        GameResult.status (.okGame u) = 200 ∧
        u.id = g.id ∧ u.enemies = g.enemies ∧ u.locations = g.locations ∧
        (truthy body.title = false → u.title = g.title) ∧
        (truthy body.title = true → u.title = body.title) ∧
        (truthy body.releaseYear = false → u.releaseYear = g.releaseYear) ∧
        (truthy body.releaseYear = true → u.releaseYear = body.releaseYear) ∧
        (truthy body.platforms = false → u.platforms = g.platforms) ∧
        (truthy body.platforms = true → u.platforms = body.platforms) ∧
        (truthy body.genre = false → u.genre = g.genre) ∧
        (truthy body.genre = true → u.genre = body.genre) ∧
        (truthy body.description = false → u.description = g.description) ∧
        (truthy body.description = true → u.description = body.description) ∧
        (truthy body.developer = false → u.developer = g.developer) ∧
        (truthy body.developer = true → u.developer = body.developer) ∧
        (truthy body.mainCharacters = false → u.mainCharacters = g.mainCharacters) ∧
        (truthy body.mainCharacters = true → u.mainCharacters = body.mainCharacters) ∧
        (truthy body.title = false → truthy body.releaseYear = false →
          truthy body.platforms = false → truthy body.genre = false →
          truthy body.description = false → truthy body.developer = false →
          truthy body.mainCharacters = false →
          updateGameByIdPatch store id body = (.okGame g, store)) := by
  intro store id body g hvalid hfind
  have hrun : updateGameByIdPatch store id body =
      (.okGame (patchMerge g body), replaceById store id (patchMerge g body)) := by
    simp [updateGameByIdPatch, hvalid, hfind]
  refine ⟨patchMerge g body, hrun, rfl, rfl, rfl, rfl, ?_, ?_, ?_, ?_, ?_, ?_,
    ?_, ?_, ?_, ?_, ?_, ?_, ?_, ?_, ?_⟩ <;>
    intro h
  case _ => simp [patchMerge, h]
  case _ => simp [patchMerge, h]
  case _ => simp [patchMerge, h]
  case _ => simp [patchMerge, h]
  case _ => simp [patchMerge, h]
  case _ => simp [patchMerge, h]
  case _ => simp [patchMerge, h]
  case _ => simp [patchMerge, h]
  case _ => simp [patchMerge, h]
  case _ => simp [patchMerge, h]
  case _ => simp [patchMerge, h]
  case _ => simp [patchMerge, h]
  case _ => simp [patchMerge, h]
  case _ => simp [patchMerge, h]
  case _ =>
    intro h2 h3 h4 h5 h6 h7
    have hu : patchMerge g body = g := by
      simp [patchMerge, h, h2, h3, h4, h5, h6, h7]
    rw [hrun, hu, replaceById_self hfind]

/-- C5 witness: patching the sample store with an all-absent body
returns 200 and leaves record and store unchanged. -/
theorem patch_preserves_falsy_fields_witness :
    ∃ u : Game,
      updateGameByIdPatch [sampleGame] validId gbNone =
        (.okGame u, replaceById [sampleGame] validId u) ∧
      GameResult.status (.okGame u) = 200 ∧
      u.id = sampleGame.id ∧ u.enemies = sampleGame.enemies ∧
      u.locations = sampleGame.locations ∧
      (truthy gbNone.title = false → u.title = sampleGame.title) ∧
      (truthy gbNone.title = true → u.title = gbNone.title) ∧
      (truthy gbNone.releaseYear = false → u.releaseYear = sampleGame.releaseYear) ∧
      (truthy gbNone.releaseYear = true → u.releaseYear = gbNone.releaseYear) ∧
      (truthy gbNone.platforms = false → u.platforms = sampleGame.platforms) ∧
      (truthy gbNone.platforms = true → u.platforms = gbNone.platforms) ∧
      (truthy gbNone.genre = false → u.genre = sampleGame.genre) ∧
      (truthy gbNone.genre = true → u.genre = gbNone.genre) ∧
      (truthy gbNone.description = false → u.description = sampleGame.description) ∧
      (truthy gbNone.description = true → u.description = gbNone.description) ∧
      (truthy gbNone.developer = false → u.developer = sampleGame.developer) ∧
      (truthy gbNone.developer = true → u.developer = gbNone.developer) ∧
      (truthy gbNone.mainCharacters = false →
        u.mainCharacters = sampleGame.mainCharacters) ∧
      (truthy gbNone.mainCharacters = true → u.mainCharacters = gbNone.mainCharacters) ∧
      (truthy gbNone.title = false → truthy gbNone.releaseYear = false →
        truthy gbNone.platforms = false → truthy gbNone.genre = false →
        truthy gbNone.description = false → truthy gbNone.developer = false →
        truthy gbNone.mainCharacters = false →
        updateGameByIdPatch [sampleGame] validId gbNone =
          (.okGame sampleGame, [sampleGame])) :=
  patch_preserves_falsy_fields [sampleGame] validId gbNone sampleGame
    (by decide) rfl

/-- C6 counterexample: a PUT whose body lacks a truthy `mainCharacters`
is not always answered with a 400 naming `mainCharacters`: with an
all-absent body on a well-formed id the loop short-circuits at `title`,
so the 400 names `title` instead. -/
theorem c6_put_missing_mainCharacters_can_name_title :
    (updateGameById [] validId gbNone).1 = .badRequest (requiredFieldMessage "title") ∧
    requiredFieldMessage "title" ≠ requiredFieldMessage "mainCharacters" :=
  ⟨rfl, by decide⟩

/-- C6 as amended: the PUT required-field set adds `mainCharacters` to
the six create fields, so a PUT on a well-formed id whose body carries
the six create fields truthy but lacks a truthy `mainCharacters` is
rejected 400 naming `mainCharacters` (with nothing stored), while
`createGame` never rejects for a missing `mainCharacters` field. -/
theorem put_requires_mainCharacters_create_does_not :
    (∀ (store : List Game) (id : String) (body : GameBody),
        isValidObjectId id = true →
        truthy body.title = true → truthy body.releaseYear = true →
        truthy body.platforms = true → truthy body.genre = true →
        truthy body.description = true → truthy body.developer = true →
        truthy body.mainCharacters = false →
        updateGameById store id body =
          (.badRequest (requiredFieldMessage "mainCharacters"), store) ∧
        GameResult.status
          (.badRequest (requiredFieldMessage "mainCharacters")) = 400) ∧
    (∀ (store : List Game) (body : GameBody) (newId : String),
        (createGame store body newId).1 ≠
          .badRequest (requiredFieldMessage "mainCharacters")) := by
  constructor
  · intro store id body hvalid h1 h2 h3 h4 h5 h6 hmain
    have hm : firstMissingField body.get gameRequiredUpdate =
        some "mainCharacters" := by
      simp [firstMissingField, gameRequiredUpdate, GameBody.get,
        h1, h2, h3, h4, h5, h6, hmain]
    exact ⟨by simp [updateGameById, hvalid, hm], rfl⟩
  · intro store body newId
    cases hm : firstMissingField body.get gameRequiredCreate with
    | none =>
      simp only [createGame, hm]
      split <;> simp
    | some f =>
      have hf : f ∈ gameRequiredCreate := firstMissingField_mem hm
      have hres : (createGame store body newId).1 =
          .badRequest (requiredFieldMessage f) := by
        simp [createGame, hm]
      rw [hres]
      intro hcontra
      have heq : requiredFieldMessage f = requiredFieldMessage "mainCharacters" := by
        injection hcontra
      fin_cases hf <;> exact absurd heq (by decide)

/-- C6 witness: a body with the six create fields but no
`mainCharacters` passes create yet fails PUT naming `mainCharacters`. -/
theorem put_requires_mainCharacters_create_does_not_witness :
    updateGameById [] validId gbNoMain =
      (.badRequest (requiredFieldMessage "mainCharacters"), []) ∧
    (createGame [] gbNoMain validId).1 ≠
      .badRequest (requiredFieldMessage "mainCharacters") :=
  ⟨(put_requires_mainCharacters_create_does_not.1 [] validId gbNoMain
      (by decide) (by decide) (by decide) (by decide) (by decide) (by decide)
      (by decide) (by decide)).1,
   put_requires_mainCharacters_create_does_not.2 [] gbNoMain validId⟩

/-- C7: every GET, PUT, PATCH, or DELETE on a games path whose
identifier is not a syntactically well-formed identifier is answered 400
with message `Invalid GameID format` — never 404 — independent of the
collection's contents and with nothing stored; and a Character creation
that passes the required-field check but whose `games` array contains an
element that is not a well-formed identifier is answered 400 with
message `Invalid game ID(s) in the 'games' field`, persisting nothing. -/
theorem invalid_id_rejected_400 :
    (∀ (store : List Game) (id : String) (body : GameBody),
        isValidObjectId id = false →
        getGameById store id = .badRequest "Invalid GameID format" ∧
        deleteGameById store id = (.badRequest "Invalid GameID format", store) ∧
        updateGameById store id body =
          (.badRequest "Invalid GameID format", store) ∧
        updateGameByIdPatch store id body =
          (.badRequest "Invalid GameID format", store) ∧
        GameResult.status (.badRequest "Invalid GameID format") = 400 ∧
        GameResult.status (.badRequest "Invalid GameID format") ≠ 404) ∧
    (∀ (gstore : List Game) (cstore : List Character) (body : CharacterBody)
        (newId : String) (refs : List JsValue),
        firstMissingField body.get characterRequiredCreate = none →
        body.games = .arr refs →
        refs.all isValidGameRef = false →
        createCharacter gstore cstore body newId =
          (.badRequest "Invalid game ID(s) in the \x27games\x27 field", cstore) ∧
        CharacterResult.status
          (.badRequest "Invalid game ID(s) in the \x27games\x27 field") = 400) := by
  constructor
  · intro store id body hbad
    refine ⟨?_, ?_, ?_, ?_, rfl, by decide⟩ <;>
      simp [getGameById, deleteGameById, updateGameById, updateGameByIdPatch, hbad]
  · intro gstore cstore body newId refs hnone hgames hbadrefs
    refine ⟨?_, rfl⟩
    simp [createCharacter, hnone, hgames, hbadrefs]

/-- C7 witness: the malformed id `"abc"` is rejected on get-by-id, and a
character body whose `games` holds `"abc"` is rejected naming the
`games` field. -/
theorem invalid_id_rejected_400_witness :
    getGameById [sampleGame] "abc" = .badRequest "Invalid GameID format" ∧
    createCharacter [] [] cbBadGames validId2 =
      (.badRequest "Invalid game ID(s) in the \x27games\x27 field", []) :=
  ⟨(invalid_id_rejected_400.1 [sampleGame] "abc" gbNone (by decide)).1,
   (invalid_id_rejected_400.2 [] [] cbBadGames validId2 [.str "abc"]
      (by decide) rfl (by decide)).1⟩

/-- C8: a successful create (201) persists the returned record under its
generated identifier, and an immediate get-by-id on the unchanged store
with that identifier answers 200 with an equal record.  The generated
identifier is well-formed and unused, and the body passes validation
with a fresh title — the conditions under which the create succeeds. -/
theorem create_then_get_roundtrip :
    ∀ (store : List Game) (body : GameBody) (newId : String),
      firstMissingField body.get gameRequiredCreate = none →
      store.any (fun g => jsEq g.title body.title) = false →
      isValidObjectId newId = true →
      (∀ g ∈ store, (g.id == newId) = false) →
      ∃ g : Game,
        createGame store body newId = (.createdGame g, store ++ [g]) ∧
        g.id = newId ∧
        getGameById (store ++ [g]) g.id = .okGame g ∧
        GameResult.status (.createdGame g) = 201 ∧
        GameResult.status (.okGame g) = 200 := by
  intro store body newId hnone hfresh hvalid hid
  refine ⟨⟨newId, body.title, body.releaseYear, body.platforms, body.genre,
    body.description, body.developer, .arr [], .arr [], .arr []⟩,
    ?_, rfl, ?_, rfl, rfl⟩
  · simp [createGame, hnone, hfresh]
  · have h1 : store.find? (fun x => x.id == newId) = none :=
      List.find?_eq_none.mpr (fun x hx => by simp [hid x hx])
    simp [getGameById, hvalid, findGame, List.find?_append, h1]

/-- C8 witness: creating from the full sample body and reading the new
identifier back returns the same record. -/
theorem create_then_get_roundtrip_witness :
    ∃ g : Game,
      createGame [] gbFull validId = (.createdGame g, [] ++ [g]) ∧
      g.id = validId ∧
      getGameById ([] ++ [g]) g.id = .okGame g ∧
      GameResult.status (.createdGame g) = 201 ∧
      GameResult.status (.okGame g) = 200 :=
  create_then_get_roundtrip [] gbFull validId (by decide) rfl (by decide)
    (by simp)

/-- C9: every successful POST /games/create persists and returns a
record holding only the six validated fields taken from the body; any
supplied `mainCharacters`, `enemies`, or `locations` value is discarded,
so a freshly created game's `mainCharacters` list is always empty. -/
theorem create_discards_unvalidated_fields :
    ∀ (store : List Game) (body : GameBody) (newId : String) (g : Game)
      (store' : List Game),
      createGame store body newId = (.createdGame g, store') →
      g = { id := newId, title := body.title, releaseYear := body.releaseYear,
            platforms := body.platforms, genre := body.genre,
            description := body.description, developer := body.developer,
            mainCharacters := .arr [], enemies := .arr [], locations := .arr [] } ∧
      g.mainCharacters = .arr [] ∧ store' = store ++ [g] := by
  intro store body newId g store' h
  rw [createGame] at h
  cases hm : firstMissingField body.get gameRequiredCreate with
  | some f => rw [hm] at h; simp at h
  | none =>
    rw [hm] at h
    cases hf : store.any (fun x => jsEq x.title body.title) with
    | true => rw [hf] at h; simp at h
    | false =>
      rw [hf] at h
      simp only [Bool.false_eq_true, if_false, Prod.mk.injEq,
        GameResult.createdGame.injEq] at h
      obtain ⟨hg, hs⟩ := h
      subst hg
      exact ⟨rfl, rfl, hs.symm⟩

/-- C9 witness: creating from `gbFull` — whose body supplies a
`mainCharacters` value — returns a record with an empty
`mainCharacters`, appended to the store. -/
theorem create_discards_unvalidated_fields_witness :
    ∃ (g : Game) (store' : List Game),
      createGame [] gbFull validId = (.createdGame g, store') ∧
      g.mainCharacters = .arr [] ∧ store' = [] ++ [g] := by
  refine ⟨_, _, rfl, ?_, ?_⟩
  · exact (create_discards_unvalidated_fields [] gbFull validId _ _ rfl).2.1
  · exact (create_discards_unvalidated_fields [] gbFull validId _ _ rfl).2.2

/-- `Number(q) || d` yields the default when the parsed value is falsy
(NaN or 0). -/
theorem orDefault_falsy {v : JsNum} {d : ℚ} (h : jsNumFalsy v = true) :
    v.orDefault d = d := by
  cases v with
  | nan => rfl
  | num q =>
    simp only [jsNumFalsy, beq_iff_eq] at h
    simp [JsNum.orDefault, h]

/-- C10: for every list request, the pagination 400 is taken exactly
when `page` or `limit` parses to a nonzero number below 1; a query value
that does not parse to a nonzero number (non-numeric, `"0"`, empty,
absent) is silently replaced by its default (page 1, limit 10), and with
both parameters defaulted the request succeeds with 200. -/
theorem pagination_bad_branch_iff :
    (∀ (gstore : List Game) (cstore : List Character) (pq lq : Option String),
        (getAllGames gstore cstore pq lq =
            .badRequest "Page and limit must be positive numbers" ↔
          parsesBelowOne (jsNumberOfQuery pq) ∨
            parsesBelowOne (jsNumberOfQuery lq)) ∧
        (jsNumFalsy (jsNumberOfQuery pq) = true →
          jsNumFalsy (jsNumberOfQuery lq) = true →
          getAllGames gstore cstore pq lq =
            .ok 1 10 gstore.length ((gstore.take 10).map (populateGameItem cstore)) ∧
          (getAllGames gstore cstore pq lq).status = 200)) ∧
    (∀ (gstore : List Game) (cstore : List Character) (pq lq : Option String),
        (getAllCharacters gstore cstore pq lq =
            .badRequest "Page and limit must be positive numbers" ↔
          parsesBelowOne (jsNumberOfQuery pq) ∨
            parsesBelowOne (jsNumberOfQuery lq)) ∧
        (jsNumFalsy (jsNumberOfQuery pq) = true →
          jsNumFalsy (jsNumberOfQuery lq) = true →
          getAllCharacters gstore cstore pq lq =
            .ok 1 10 cstore.length
              ((cstore.take 10).map (populateCharacterItem gstore)) ∧
          (getAllCharacters gstore cstore pq lq).status = 200)) := by
  have hgames : ∀ (gstore : List Game) (cstore : List Character),
      getAllGamesPaged gstore cstore 1 10 =
        .ok 1 10 gstore.length ((gstore.take 10).map (populateGameItem cstore)) := by
    intro gstore cstore
    rw [getAllGamesPaged, if_neg (by norm_num), if_pos ⟨rfl, rfl⟩,
      show ((((1:ℚ).num - 1) * (10:ℚ).num)).toNat = 0 from rfl,
      show ((10:ℚ).num).toNat = 10 from rfl]
    simp
  have hchars : ∀ (gstore : List Game) (cstore : List Character),
      getAllCharactersPaged gstore cstore 1 10 =
        .ok 1 10 cstore.length
          ((cstore.take 10).map (populateCharacterItem gstore)) := by
    intro gstore cstore
    rw [getAllCharactersPaged, if_neg (by norm_num), if_pos ⟨rfl, rfl⟩,
      show ((((1:ℚ).num - 1) * (10:ℚ).num)).toNat = 0 from rfl,
      show ((10:ℚ).num).toNat = 10 from rfl]
    simp
  constructor
  · intro gstore cstore pq lq
    constructor
    · rw [getAllGames, getAllGamesPaged_badRequest_iff,
        orDefault_lt_one _ 1 (by norm_num), orDefault_lt_one _ 10 (by norm_num)]
    · intro hp hl
      rw [getAllGames, orDefault_falsy hp, orDefault_falsy hl]
      exact ⟨hgames gstore cstore, by rw [hgames gstore cstore]; rfl⟩
  · intro gstore cstore pq lq
    constructor
    · rw [getAllCharacters, getAllCharactersPaged_badRequest_iff,
        orDefault_lt_one _ 1 (by norm_num), orDefault_lt_one _ 10 (by norm_num)]
    · intro hp hl
      rw [getAllCharacters, orDefault_falsy hp, orDefault_falsy hl]
      exact ⟨hchars gstore cstore, by rw [hchars gstore cstore]; rfl⟩

/-- C10 witness: `page=abc&limit=` is defaulted and succeeds on both
collections, while `page=0.5` — a nonzero number below 1 — takes the
400 branch. -/
theorem pagination_bad_branch_iff_witness :
    getAllGames [sampleGame] [] (some "abc") (some "") =
      .ok 1 10 [sampleGame].length
        (([sampleGame].take 10).map (populateGameItem [])) ∧
    getAllCharacters [] [sampleCharacter] none (some "0") =
      .ok 1 10 [sampleCharacter].length
        (([sampleCharacter].take 10).map (populateCharacterItem [])) ∧
    getAllGames [] [] (some "0.5") none =
      .badRequest "Page and limit must be positive numbers" :=
  ⟨((pagination_bad_branch_iff.1 [sampleGame] [] (some "abc") (some "")).2
      (by decide) (by decide)).1,
   ((pagination_bad_branch_iff.2 [] [sampleCharacter] none (some "0")).2
      (by decide) (by decide)).1,
   (pagination_bad_branch_iff.1 [] [] (some "0.5") none).1.mpr
     (Or.inl ⟨mkRat 1 2, by decide, by decide, by decide⟩)⟩

end Revil
